import Mathlib

/-!
Verification development for the MCP client session manager of
`sast-readium-web` (`src-tauri/src/commands/mcp/client.rs` and
`src-tauri/src/commands/mcp/commands.rs`).

The Rust code is embedded shallowly:

* `serde_json::Value` becomes the inductive `Json`.
* The opaque `RunningService<RoleClient, ()>` peer handle becomes an
  abstract type parameter `σ`; every remote round trip on a peer handle
  (spawn, handshake, list/call/read/get, cancel) is passed in as an
  explicit outcome or oracle function, so all interesting control flow of
  the Rust functions is preserved while the network is a parameter.
* `HashMap<String, MCPClientSession>` becomes an association list with
  HashMap insert/remove semantics (insert replaces the value of an
  existing key); well-formed registries have pairwise distinct keys.
* `async` + `RwLock` structure: each lock-guarded block of the Rust code
  is a separate Lean function, and the full operation is their sequential
  composition, so interleavings of the guarded blocks can be analysed
  separately (used for the connect check/insert race).
* Errors mirror `AppError`; the spec taxonomy names map to it as follows:
  `AlreadyConnected`, `SpawnFailure`, `HandshakeFailure`,
  `RemoteCallFailure` and `UnsupportedTransport` are all carried as
  `AppError.Mcp msg` with the distinguishing message produced at the
  corresponding source line, and `NotFound` is `AppError.NotFound msg`.
  Message strings keep the source text with the single quotes around
  interpolated ids elided.
-/

namespace SastReadium

/-- Shallow model of `serde_json::Value`. Numbers are collapsed to `Int`;
none of the verified code inspects numeric payloads. -/
inductive Json where
  | null
  | bool (b : Bool)
  | num (n : Int)
  | str (s : String)
  | arr (items : List Json)
  | obj (fields : List (String × Json))

/-- Model of `serde_json::Value::as_object` (followed by `.cloned()`):
returns the field map when the value is an object, `none` otherwise. -/
def Json.asObject : Json → Option (List (String × Json))
  | .obj fields => some fields
  | _ => none

/-- True exactly on the `obj` constructor. -/
def Json.isObject : Json → Bool
  | .obj _ => true
  | _ => false

/-- Model of `AppError` (`src/error.rs`); only the constructors reachable
from the MCP client are kept. -/
inductive AppError where
  | Mcp (msg : String)
  | NotFound (msg : String)
  deriving DecidableEq, Repr

-- ===========================================================================
-- rmcp-side handshake types (the parts `client.rs` reads)
-- ===========================================================================

/-- Model of `rmcp::model::ToolsCapability` (contents irrelevant to the
client, which only tests presence). -/
structure ToolsCapability where
  list_changed : Option Bool
  deriving DecidableEq, Repr

/-- Model of `rmcp::model::ResourcesCapability`. -/
structure ResourcesCapability where
  subscribe : Option Bool
  list_changed : Option Bool
  deriving DecidableEq, Repr

/-- Model of `rmcp::model::PromptsCapability`. -/
structure PromptsCapability where
  list_changed : Option Bool
  deriving DecidableEq, Repr

/-- Model of the four capability sections of
`rmcp::model::ServerCapabilities` read by `extract_capabilities`; the
logging section carries an arbitrary JSON payload. -/
structure ServerCapabilitySections where
  tools : Option ToolsCapability
  resources : Option ResourcesCapability
  prompts : Option PromptsCapability
  logging : Option Json

/-- Model of the fields of `rmcp::model::InitializeResult` read by
`client.rs`. -/
structure InitializeResult where
  protocol_version : String
  capabilities : ServerCapabilitySections

-- ===========================================================================
-- Frontend-facing types (`client.rs` lines 24-132)
-- ===========================================================================

/-- `MCPServerCapabilities` (`client.rs` lines 35-42). -/
structure MCPServerCapabilities where
  tools : Bool
  resources : Bool
  prompts : Bool
  logging : Bool
  deriving DecidableEq, Repr

/-- `Default` instance of `MCPServerCapabilities`: all flags false. -/
def MCPServerCapabilities.default : MCPServerCapabilities :=
  { tools := false, resources := false, prompts := false, logging := false }

/-- `MCPClientInfo` (`client.rs` lines 24-32). -/
structure MCPClientInfo where
  server_id : String
  server_name : String
  protocol_version : Option String
  capabilities : MCPServerCapabilities
  status : String
  deriving DecidableEq, Repr

/-- `MCPToolInfo` (`client.rs` lines 45-51). -/
structure MCPToolInfo where
  name : String
  description : Option String
  input_schema : Option Json

/-- `MCPResourceInfo` (`client.rs` lines 54-61). -/
structure MCPResourceInfo where
  uri : String
  name : String
  description : Option String
  mime_type : Option String
  deriving DecidableEq, Repr

/-- `MCPPromptArgument` (`client.rs` lines 73-79). -/
structure MCPPromptArgument where
  name : String
  description : Option String
  required : Bool
  deriving DecidableEq, Repr

/-- `MCPPromptInfo` (`client.rs` lines 64-70). -/
structure MCPPromptInfo where
  name : String
  description : Option String
  arguments : Option (List MCPPromptArgument)
  deriving DecidableEq, Repr

/-- `MCPContent` (`client.rs` lines 91-99). -/
structure MCPContent where
  content_type : String
  text : Option String
  data : Option String
  mime_type : Option String
  deriving DecidableEq, Repr

/-- `MCPToolCallResult` (`client.rs` lines 82-88). -/
structure MCPToolCallResult where
  success : Bool
  content : List MCPContent
  is_error : Bool
  deriving DecidableEq, Repr

/-- `MCPResourceContent` (`client.rs` lines 109-116). -/
structure MCPResourceContent where
  uri : String
  mime_type : Option String
  text : Option String
  blob : Option String
  deriving DecidableEq, Repr

/-- `MCPResourceReadResult` (`client.rs` lines 102-106). -/
structure MCPResourceReadResult where
  contents : List MCPResourceContent
  deriving DecidableEq, Repr

/-- `MCPPromptMessage` (`client.rs` lines 127-132). -/
structure MCPPromptMessage where
  role : String
  content : MCPContent
  deriving DecidableEq, Repr

/-- `MCPPromptGetResult` (`client.rs` lines 119-124). -/
structure MCPPromptGetResult where
  description : Option String
  messages : List MCPPromptMessage
  deriving DecidableEq, Repr

-- ===========================================================================
-- rmcp content payloads consumed by the converters
-- ===========================================================================

/-- Model of `rmcp::model::ResourceContents`: an enum with the two struct
variants read by `client.rs`. -/
inductive ResourceContents where
  | textResourceContents (uri : String) (mime_type : Option String) (text : String)
  | blobResourceContents (uri : String) (mime_type : Option String) (blob : String)
  deriving DecidableEq, Repr

/-- Model of `rmcp::model::RawTextContent`. -/
structure RawTextContent where
  text : String
  deriving DecidableEq, Repr

/-- Model of `rmcp::model::RawImageContent` (also stands for the audio
payload, which has the same two fields read by the client). -/
structure RawMediaContent where
  data : String
  mime_type : String
  deriving DecidableEq, Repr

/-- Model of `rmcp::model::RawEmbeddedResource`: the `resource` field is
all the client reads. -/
structure RawEmbeddedResource where
  resource : ResourceContents
  deriving DecidableEq, Repr

/-- Model of `rmcp::model::ResourceLink` fields read by the client. -/
structure RawResourceLink where
  uri : String
  mime_type : Option String
  deriving DecidableEq, Repr

/-- Model of `rmcp::model::RawContent` (annotations are never read by
`convert_raw_content`, so `Annotated` is dropped). -/
inductive RawContent where
  | text (t : RawTextContent)
  | image (img : RawMediaContent)
  | audio (a : RawMediaContent)
  | resource (res : RawEmbeddedResource)
  | resourceLink (link : RawResourceLink)
  deriving DecidableEq, Repr

/-- Model of `rmcp::model::PromptMessageRole`. -/
inductive PromptMessageRole where
  | user
  | assistant
  deriving DecidableEq, Repr

/-- Model of `rmcp::model::PromptMessageContent`. -/
inductive PromptMessageContent where
  | text (text : String)
  | image (image : RawMediaContent)
  | resource (resource : RawEmbeddedResource)
  | resourceLink (link : RawResourceLink)
  deriving DecidableEq, Repr

-- ===========================================================================
-- Helper functions (`client.rs` lines 170-284)
-- ===========================================================================

/-- `extract_capabilities` (`client.rs` lines 171-183). -/
def extract_capabilities (peer_info : Option InitializeResult) : MCPServerCapabilities :=
  match peer_info with
  | some info =>
      { tools := info.capabilities.tools.isSome
        resources := info.capabilities.resources.isSome
        prompts := info.capabilities.prompts.isSome
        logging := info.capabilities.logging.isSome }
  | none => MCPServerCapabilities.default

/-- `extract_protocol_version` (`client.rs` lines 186-188). -/
def extract_protocol_version (peer_info : Option InitializeResult) : Option String :=
  peer_info.map (fun info => info.protocol_version)

/-- `convert_raw_content` (`client.rs` lines 191-235). -/
def convert_raw_content (content : RawContent) : MCPContent :=
  match content with
  | .text t =>
      { content_type := "text", text := some t.text, data := none, mime_type := none }
  | .image img =>
      { content_type := "image", text := none, data := some img.data
        mime_type := some img.mime_type }
  | .audio a =>
      { content_type := "audio", text := none, data := some a.data
        mime_type := some a.mime_type }
  | .resource res =>
      let (text, blob, mime_type) :=
        match res.resource with
        | .textResourceContents _ mime_type text => (some text, none, mime_type)
        | .blobResourceContents _ mime_type blob => (none, some blob, mime_type)
      { content_type := "resource", text := text, data := blob, mime_type := mime_type }
  | .resourceLink link =>
      { content_type := "resource_link", text := some link.uri, data := none
        mime_type := link.mime_type }

/-- `convert_prompt_content` (`client.rs` lines 238-276). -/
def convert_prompt_content (content : PromptMessageContent) : MCPContent :=
  match content with
  | .text text =>
      { content_type := "text", text := some text, data := none, mime_type := none }
  | .image image =>
      { content_type := "image", text := none, data := some image.data
        mime_type := some image.mime_type }
  | .resource resource =>
      let (text, blob, mime_type) :=
        match resource.resource with
        | .textResourceContents _ mime_type text => (some text, none, mime_type)
        | .blobResourceContents _ mime_type blob => (none, some blob, mime_type)
      { content_type := "resource", text := text, data := blob, mime_type := mime_type }
  | .resourceLink link =>
      { content_type := "resource_link", text := some link.uri, data := none
        mime_type := link.mime_type }

/-- `role_to_string` (`client.rs` lines 279-284). -/
def role_to_string (role : PromptMessageRole) : String :=
  match role with
  | .user => "user"
  | .assistant => "assistant"

-- ===========================================================================
-- Session registry (`client.rs` lines 139-164)
-- ===========================================================================

/-- `MCPClientSession` (`client.rs` lines 139-143); the opaque
`RunningService<RoleClient, ()>` handle is the type parameter `σ`. -/
structure MCPClientSession (σ : Type) where
  server_id : String
  server_name : String
  service : σ
  deriving DecidableEq, Repr

/-- The `sessions` map of `MCPClientState` (`client.rs` lines 146-148):
an association list with `HashMap` semantics. -/
def Sessions (σ : Type) : Type := List (String × MCPClientSession σ)

/-- The empty registry (`MCPClientState::default`). -/
def Sessions.empty (σ : Type) : Sessions σ := ([] : List (String × MCPClientSession σ))

/-- `HashMap::get` on the sessions map. -/
def Sessions.lookup {σ : Type} : Sessions σ → String → Option (MCPClientSession σ)
  | ([] : List (String × MCPClientSession σ)), _ => none
  | (k, v) :: rest, key => if k = key then some v else Sessions.lookup rest key

/-- `HashMap::contains_key` on the sessions map. -/
def Sessions.containsKey {σ : Type} (st : Sessions σ) (key : String) : Bool :=
  (st.lookup key).isSome

/-- `HashMap::insert`: replaces the value when the key is present,
otherwise appends the binding. -/
def Sessions.insert {σ : Type} : Sessions σ → String → MCPClientSession σ →
    Sessions σ
  | ([] : List (String × MCPClientSession σ)), key, v => [(key, v)]
  | (k, w) :: rest, key, v =>
      if k = key then (k, v) :: rest else (k, w) :: Sessions.insert rest key v

/-- `HashMap::remove`: returns the removed value (if any) together with
the remaining map. -/
def Sessions.remove {σ : Type} : Sessions σ → String →
    Option (MCPClientSession σ) × Sessions σ
  | ([] : List (String × MCPClientSession σ)), _ =>
      (none, ([] : List (String × MCPClientSession σ)))
  | (k, v) :: rest, key =>
      if k = key then (some v, rest)
      else
        let (removed, rest2) := Sessions.remove rest key
        (removed, (k, v) :: rest2)

/-- The keys of the sessions map, in order. -/
def Sessions.keys {σ : Type} (st : Sessions σ) : List String :=
  st.map Prod.fst

-- ===========================================================================
-- connect (`client.rs` lines 291-358)
-- ===========================================================================

/-- Result of one `connect_mcp_server` call in the model. `spawnAttempted`
records whether control reached the transport-creation expression at
`client.rs` line 314 (the subprocess spawn); it is the observable that
lets theorems state that a path fails before any spawn attempt. -/
structure ConnectOutcome (σ : Type) where
  result : Except AppError MCPClientInfo
  state : Sessions σ
  spawnAttempted : Bool

/-- First critical section of `connect_mcp_server` (`client.rs` lines
300-308): under the read lock, test whether `server_id` is already a key.
The lock is released at the end of the block, before the transport is
created. -/
def connectCheck {σ : Type} (st : Sessions σ) (server_id : String) : Bool :=
  st.containsKey server_id

/-- Second critical section of `connect_mcp_server` (`client.rs` lines
344-354): under the write lock, unconditionally insert the new session. -/
def connectInsert {σ : Type} (st : Sessions σ) (server_id server_name : String)
    (service : σ) : Sessions σ :=
  st.insert server_id
    { server_id := server_id, server_name := server_name, service := service }

/-- `connect_mcp_server` (`client.rs` lines 291-358) run to completion
with no interference between its two critical sections.

`transport` is the outcome of `TokioChildProcess::new` (line 314, the
spawn), `serve` the outcome of `().serve(transport)` (line 325, the
handshake), and `peer_info` models `service.peer_info()` on the connected
handle (line 331). The `command`, `args` and `env` parameters only feed
the spawned process and are otherwise unread, exactly as in the source. -/
def connect_mcp_server {τ σ : Type} (st : Sessions σ)
    (server_id server_name : String)
    (_command : String) (_args : List String)
    (_env : Option (List (String × String)))
    (transport : Except String τ)
    (serve : τ → Except String σ)
    (peer_info : σ → Option InitializeResult) : ConnectOutcome σ :=
  if connectCheck st server_id then
    { result := .error (.Mcp ("Server " ++ server_id ++ " is already connected"))
      state := st
      spawnAttempted := false }
  else
    match transport with
    | .error e =>
        { result := .error (.Mcp ("Failed to create transport: " ++ e))
          state := st
          spawnAttempted := true }
    | .ok t =>
        match serve t with
        | .error e =>
            { result := .error (.Mcp ("Failed to connect to MCP server: " ++ e))
              state := st
              spawnAttempted := true }
        | .ok service =>
            let info := peer_info service
            { result := .ok
                { server_id := server_id
                  server_name := server_name
                  protocol_version := extract_protocol_version info
                  capabilities := extract_capabilities info
                  status := "connected" }
              state := connectInsert st server_id server_name service
              spawnAttempted := true }

-- ===========================================================================
-- disconnect (`client.rs` lines 361-384) and
-- disconnect_all (`client.rs` lines 630-649)
-- ===========================================================================

/-- First phase of `disconnect_mcp_server` (`client.rs` lines 365-368):
under the write lock, remove the session; the lock is released before the
cancellation of the removed session is awaited. -/
def disconnectRemove {σ : Type} (st : Sessions σ) (server_id : String) :
    Option (MCPClientSession σ) × Sessions σ :=
  st.remove server_id

/-- `disconnect_mcp_server` (`client.rs` lines 361-384). `cancel` is the
outcome of `session.service.cancel()` for each possible session. Returns
the call result together with the final registry. -/
def disconnect_mcp_server {σ : Type} (st : Sessions σ) (server_id : String)
    (cancel : σ → Except String Unit) : Except AppError Unit × Sessions σ :=
  let (session, st2) := disconnectRemove st server_id
  match session with
  | some s =>
      match cancel s.service with
      | .error e => (.error (.Mcp ("Failed to disconnect: " ++ e)), st2)
      | .ok _ => (.ok (), st2)
  | none => (.error (.NotFound ("Server " ++ server_id ++ " not found")), st2)

/-- The cancellation loop of `disconnect_all_mcp_servers` (`client.rs`
lines 636-646): every drained session is cancelled in turn; an error is
logged (recorded here as the outcome paired with the session) and never
stops the loop. -/
def cancelAllLoop {σ : Type} (cancel : σ → Except String Unit) :
    List (MCPClientSession σ) → List (MCPClientSession σ × Except String Unit)
  | [] => []
  | s :: rest => (s, cancel s.service) :: cancelAllLoop cancel rest

/-- `disconnect_all_mcp_servers` (`client.rs` lines 630-649): phase one
drains the whole map under the write lock; phase two cancels each drained
session. Returns the call result, the final registry, and the list of
cancellation attempts with their outcomes. -/
def disconnect_all_mcp_servers {σ : Type} (st : Sessions σ)
    (cancel : σ → Except String Unit) :
    Except AppError Unit × Sessions σ ×
      List (MCPClientSession σ × Except String Unit) :=
  let sessions := st.map Prod.snd
  (.ok (), Sessions.empty σ, cancelAllLoop cancel sessions)

-- ===========================================================================
-- Raw results of the remote round trips (rmcp result types, the fields
-- `client.rs` reads)
-- ===========================================================================

/-- Model of `rmcp::model::Tool` fields read by `list_mcp_tools`; the
input schema is a JSON object map (`Arc<JsonObject>`). -/
structure RawTool where
  name : String
  description : Option String
  input_schema : List (String × Json)

/-- Model of `rmcp::model::ListToolsResult`. -/
structure ListToolsResult where
  tools : List RawTool

/-- Model of `serde_json::to_value` applied to an in-memory JSON object
map (`client.rs` line 409): serialization of a value that is already JSON
cannot fail, so `.ok()` always yields `Some`. -/
def serde_json_to_value (m : List (String × Json)) : Option Json :=
  some (Json.obj m)

/-- Model of `rmcp::model::RawResource` fields read by
`list_mcp_resources`. -/
structure RawResource where
  uri : String
  name : String
  description : Option String
  mime_type : Option String

/-- Model of `rmcp::model::ListResourcesResult`. -/
structure ListResourcesResult where
  resources : List RawResource

/-- Model of `rmcp::model::PromptArgument`. -/
structure RawPromptArgument where
  name : String
  description : Option String
  required : Option Bool

/-- Model of `rmcp::model::Prompt` fields read by `list_mcp_prompts`. -/
structure RawPrompt where
  name : String
  description : Option String
  arguments : Option (List RawPromptArgument)

/-- Model of `rmcp::model::ListPromptsResult`. -/
structure ListPromptsResult where
  prompts : List RawPrompt

/-- Model of `rmcp::model::CallToolRequestParam`. -/
structure CallToolRequestParam where
  name : String
  arguments : Option (List (String × Json))

/-- Model of `rmcp::model::CallToolResult` fields read by
`call_mcp_tool`. -/
structure RawCallToolResult where
  content : List RawContent
  is_error : Option Bool

/-- Model of `rmcp::model::ReadResourceRequestParam`. -/
structure ReadResourceRequestParam where
  uri : String

/-- Model of `rmcp::model::ReadResourceResult`. -/
structure RawReadResourceResult where
  contents : List ResourceContents

/-- Model of `rmcp::model::GetPromptRequestParam`. -/
structure GetPromptRequestParam where
  name : String
  arguments : Option (List (String × Json))

/-- Model of `rmcp::model::PromptMessage`. -/
structure RawPromptMessage where
  role : PromptMessageRole
  content : PromptMessageContent

/-- Model of `rmcp::model::GetPromptResult` fields read by
`get_mcp_prompt`. -/
structure RawGetPromptResult where
  description : Option String
  messages : List RawPromptMessage

-- ===========================================================================
-- Operation dispatch (`client.rs` lines 387-603)
-- ===========================================================================

/-- `list_mcp_tools` (`client.rs` lines 387-414). `list_tools` is the
remote round trip `session.service.list_tools(Default::default())`. -/
def list_mcp_tools {σ : Type} (st : Sessions σ) (server_id : String)
    (list_tools : σ → Except String ListToolsResult) :
    Except AppError (List MCPToolInfo) :=
  match st.lookup server_id with
  | none => .error (.NotFound ("Server " ++ server_id ++ " not found"))
  | some session =>
      match list_tools session.service with
      | .error e => .error (.Mcp ("Failed to list tools: " ++ e))
      | .ok result =>
          .ok (result.tools.map (fun t =>
            { name := t.name
              description := t.description
              input_schema := serde_json_to_value t.input_schema }))

/-- `list_mcp_resources` (`client.rs` lines 417-445). -/
def list_mcp_resources {σ : Type} (st : Sessions σ) (server_id : String)
    (list_resources : σ → Except String ListResourcesResult) :
    Except AppError (List MCPResourceInfo) :=
  match st.lookup server_id with
  | none => .error (.NotFound ("Server " ++ server_id ++ " not found"))
  | some session =>
      match list_resources session.service with
      | .error e => .error (.Mcp ("Failed to list resources: " ++ e))
      | .ok result =>
          .ok (result.resources.map (fun r =>
            { uri := r.uri
              name := r.name
              description := r.description
              mime_type := r.mime_type }))

/-- `list_mcp_prompts` (`client.rs` lines 448-483). -/
def list_mcp_prompts {σ : Type} (st : Sessions σ) (server_id : String)
    (list_prompts : σ → Except String ListPromptsResult) :
    Except AppError (List MCPPromptInfo) :=
  match st.lookup server_id with
  | none => .error (.NotFound ("Server " ++ server_id ++ " not found"))
  | some session =>
      match list_prompts session.service with
      | .error e => .error (.Mcp ("Failed to list prompts: " ++ e))
      | .ok result =>
          .ok (result.prompts.map (fun p =>
            { name := p.name
              description := p.description
              arguments := p.arguments.map (fun args =>
                args.map (fun a =>
                  { name := a.name
                    description := a.description
                    required := a.required.getD false })) }))

/-- `call_mcp_tool` (`client.rs` lines 486-516). The line
`let args = arguments.and_then(|v| v.as_object().cloned())` becomes
`arguments.bind Json.asObject`. -/
def call_mcp_tool {σ : Type} (st : Sessions σ) (server_id : String)
    (tool_name : String) (arguments : Option Json)
    (call_tool : σ → CallToolRequestParam → Except String RawCallToolResult) :
    Except AppError MCPToolCallResult :=
  match st.lookup server_id with
  | none => .error (.NotFound ("Server " ++ server_id ++ " not found"))
  | some session =>
      let args := arguments.bind Json.asObject
      match call_tool session.service { name := tool_name, arguments := args } with
      | .error e => .error (.Mcp ("Failed to call tool: " ++ e))
      | .ok result =>
          .ok { success := true
                content := result.content.map convert_raw_content
                is_error := result.is_error.getD false }

/-- The per-item conversion closure inside `read_mcp_resource`
(`client.rs` lines 539-555). -/
def resourceContentsToMCP (c : ResourceContents) : MCPResourceContent :=
  match c with
  | .textResourceContents uri mime_type text =>
      { uri := uri, mime_type := mime_type, text := some text, blob := none }
  | .blobResourceContents uri mime_type blob =>
      { uri := uri, mime_type := mime_type, text := none, blob := some blob }

/-- `read_mcp_resource` (`client.rs` lines 519-559). -/
def read_mcp_resource {σ : Type} (st : Sessions σ) (server_id : String)
    (uri : String)
    (read_resource : σ → ReadResourceRequestParam →
      Except String RawReadResourceResult) :
    Except AppError MCPResourceReadResult :=
  match st.lookup server_id with
  | none => .error (.NotFound ("Server " ++ server_id ++ " not found"))
  | some session =>
      match read_resource session.service { uri := uri } with
      | .error e => .error (.Mcp ("Failed to read resource: " ++ e))
      | .ok result =>
          .ok { contents := result.contents.map resourceContentsToMCP }

/-- `get_mcp_prompt` (`client.rs` lines 562-603). The argument map
`HashMap<String, String>` is converted entry-wise to JSON strings. -/
def get_mcp_prompt {σ : Type} (st : Sessions σ) (server_id : String)
    (prompt_name : String) (arguments : Option (List (String × String)))
    (get_prompt : σ → GetPromptRequestParam →
      Except String RawGetPromptResult) :
    Except AppError MCPPromptGetResult :=
  match st.lookup server_id with
  | none => .error (.NotFound ("Server " ++ server_id ++ " not found"))
  | some session =>
      let args := arguments.map (fun m =>
        m.map (fun kv => (kv.1, Json.str kv.2)))
      match get_prompt session.service { name := prompt_name, arguments := args } with
      | .error e => .error (.Mcp ("Failed to get prompt: " ++ e))
      | .ok result =>
          .ok { description := result.description
                messages := result.messages.map (fun m =>
                  { role := role_to_string m.role
                    content := convert_prompt_content m.content }) }

-- ===========================================================================
-- Command layer (`commands.rs`)
-- ===========================================================================

/-- `MCPServerConfig` (`types.rs` lines 15-31); maps become association
lists. -/
structure MCPServerConfig where
  id : String
  name : String
  server_type : String
  enabled : Bool
  command : Option String
  args : Option (List String)
  env : Option (List (String × String))
  url : Option String
  headers : Option (List (String × String))
  description : Option String
  created_at : Int
  updated_at : Int

/-- `mcp_connect_from_config` (`commands.rs` lines 81-104): rejects any
non-stdio transport, then a missing command, before delegating to
`connect_mcp_server`. -/
def mcp_connect_from_config {τ σ : Type} (st : Sessions σ)
    (config : MCPServerConfig)
    (transport : Except String τ)
    (serve : τ → Except String σ)
    (peer_info : σ → Option InitializeResult) : ConnectOutcome σ :=
  if config.server_type ≠ "stdio" then
    { result := .error
        (.Mcp "Only stdio MCP servers are supported for native connections")
      state := st
      spawnAttempted := false }
  else
    match config.command with
    | none =>
        { result := .error (.Mcp "No command specified for stdio server")
          state := st
          spawnAttempted := false }
    | some command =>
        connect_mcp_server st config.id config.name command
          (config.args.getD []) config.env transport serve peer_info

-- ===========================================================================
-- Registry lemmas
-- ===========================================================================

/-- Looking up a key just inserted yields the inserted session. -/
theorem Sessions.lookup_insert {σ : Type} (st : Sessions σ) (key : String)
    (v : MCPClientSession σ) : (st.insert key v).lookup key = some v := by
  induction st with
  | nil => simp [Sessions.insert, Sessions.lookup]
  | cons hd tl ih =>
      obtain ⟨k, w⟩ := hd
      by_cases h : k = key
      · simp [Sessions.insert, Sessions.lookup, h]
      · simp [Sessions.insert, Sessions.lookup, h, ih]

/-- A key that is not among the keys of the map looks up to nothing. -/
theorem Sessions.lookup_eq_none_of_not_mem_keys {σ : Type} (st : Sessions σ)
    (key : String) (h : key ∉ st.keys) : st.lookup key = none := by
  induction st with
  | nil => rfl
  | cons hd tl ih =>
      obtain ⟨k, w⟩ := hd
      rw [Sessions.keys, List.map_cons] at h
      have hk : key ≠ k := fun hh => h (hh ▸ List.mem_cons_self _ _)
      have htl : key ∉ List.map Prod.fst tl := fun hm => h (List.mem_cons_of_mem _ hm)
      rw [Sessions.lookup, if_neg (fun hh => hk hh.symm)]
      exact ih htl

/-- Removing an absent key returns the map unchanged. -/
theorem Sessions.remove_of_not_contains {σ : Type} (st : Sessions σ)
    (key : String) (h : st.containsKey key = false) :
    st.remove key = (none, st) := by
  induction st with
  | nil => rfl
  | cons hd tl ih =>
      obtain ⟨k, w⟩ := hd
      rw [Sessions.containsKey, Sessions.lookup] at h
      by_cases hk : k = key
      · rw [if_pos hk] at h
        simp at h
      · rw [if_neg hk] at h
        have htl : Sessions.containsKey tl key = false := h
        rw [Sessions.remove, if_neg hk, ih htl]

/-- On a map with pairwise distinct keys, the map left after a removal no
longer contains the removed key. -/
theorem Sessions.lookup_remove_self {σ : Type} (st : Sessions σ)
    (key : String) (hnd : st.keys.Nodup) :
    (st.remove key).2.lookup key = none := by
  induction st with
  | nil => rfl
  | cons hd tl ih =>
      obtain ⟨k, w⟩ := hd
      rw [Sessions.keys, List.map_cons] at hnd
      rcases List.nodup_cons.mp hnd with ⟨hk_not_mem, hnd_tl⟩
      by_cases hk : k = key
      · subst hk
        rw [Sessions.remove, if_pos rfl]
        exact Sessions.lookup_eq_none_of_not_mem_keys tl k hk_not_mem
      · rcases hrem : Sessions.remove tl key with ⟨removed, rest2⟩
        have hcons : Sessions.remove ((k, w) :: tl) key = (removed, (k, w) :: rest2) := by
          rw [Sessions.remove, if_neg hk, hrem]
        rw [hcons, Sessions.lookup, if_neg hk]
        have htl := ih hnd_tl
        rw [hrem] at htl
        exact htl

/-- Every session of the drained list receives exactly its own
cancellation attempt in the loop of `disconnect_all_mcp_servers`. -/
theorem mem_cancelAllLoop {σ : Type} (cancel : σ → Except String Unit)
    (l : List (MCPClientSession σ)) (s : MCPClientSession σ) (hs : s ∈ l) :
    (s, cancel s.service) ∈ cancelAllLoop cancel l := by
  induction l with
  | nil => cases hs
  | cons hd tl ih =>
      rw [cancelAllLoop]
      rcases List.mem_cons.mp hs with h | h
      · subst h
        exact List.mem_cons_self _ _
      · exact List.mem_cons_of_mem _ (ih h)

/-- A non-object JSON value has no object view. -/
theorem Json.asObject_eq_none_of_not_isObject (v : Json)
    (h : v.isObject = false) : v.asObject = none := by
  cases v <;> simp_all [Json.isObject, Json.asObject]

-- ===========================================================================
-- Claim theorems
-- ===========================================================================

/-- C6: capability extraction of an absent handshake result yields all
four flags false; of a present handshake result, each flag equals the
presence of the corresponding capability section, whatever that section
contains. -/
theorem c6_extract_capabilities_presence :
    extract_capabilities none =
      { tools := false, resources := false, prompts := false, logging := false } ∧
    ∀ info : InitializeResult,
      (extract_capabilities (some info)).tools = info.capabilities.tools.isSome ∧
      (extract_capabilities (some info)).resources = info.capabilities.resources.isSome ∧
      (extract_capabilities (some info)).prompts = info.capabilities.prompts.isSome ∧
      (extract_capabilities (some info)).logging = info.capabilities.logging.isSome :=
  ⟨rfl, fun _ => ⟨rfl, rfl, rfl, rfl⟩⟩

/-- C7: normalization of a text resource populates `text` and leaves
`blob` absent, of a blob resource populates `blob` and leaves `text`
absent, for the per-item conversion of `read_mcp_resource`; and the
`resource` branch of `convert_raw_content` populates exactly one of
`text` and `data` (both stated as: the text flag is the negation of the
blob flag, so the two are never both populated and never both absent). -/
theorem c7_resource_content_text_blob_exclusive :
    (∀ uri mime_type text,
      resourceContentsToMCP (.textResourceContents uri mime_type text) =
        { uri := uri, mime_type := mime_type, text := some text, blob := none }) ∧
    (∀ uri mime_type blob,
      resourceContentsToMCP (.blobResourceContents uri mime_type blob) =
        { uri := uri, mime_type := mime_type, text := none, blob := some blob }) ∧
    (∀ c : ResourceContents,
      (resourceContentsToMCP c).text.isSome = !(resourceContentsToMCP c).blob.isSome) ∧
    (∀ res : RawEmbeddedResource,
      (convert_raw_content (.resource res)).text.isSome =
        !(convert_raw_content (.resource res)).data.isSome) := by
  refine ⟨fun _ _ _ => rfl, fun _ _ _ => rfl, fun c => ?_, fun res => ?_⟩
  · cases c <;> rfl
  · obtain ⟨rc⟩ := res
    cases rc <;> rfl

/-- C5: for a connected id, calling a tool with a non-object JSON
arguments value produces exactly the same call as passing no arguments at
all: the value is coerced to "no arguments", not rejected. -/
theorem c5_call_tool_nonobject_as_no_arguments {σ : Type} (st : Sessions σ)
    (server_id tool_name : String) (v : Json)
    (call_tool : σ → CallToolRequestParam → Except String RawCallToolResult)
    (_hconn : st.containsKey server_id = true)
    (hv : v.isObject = false) :
    call_mcp_tool st server_id tool_name (some v) call_tool =
      call_mcp_tool st server_id tool_name none call_tool := by
  have hobj := Json.asObject_eq_none_of_not_isObject v hv
  unfold call_mcp_tool
  cases st.lookup server_id with
  | none => rfl
  | some session => simp [hobj]

/-- Witness for C5 at a singleton registry, a JSON array argument and a
constant remote oracle. -/
theorem c5_call_tool_nonobject_witness :
    Sessions.containsKey [("s1", (⟨"s1", "srv", 0⟩ : MCPClientSession Nat))] "s1" = true ∧
    Json.isObject (Json.arr []) = false ∧
    call_mcp_tool [("s1", (⟨"s1", "srv", 0⟩ : MCPClientSession Nat))] "s1" "echo"
        (some (Json.arr [])) (fun _ _ => .ok ⟨[], none⟩) =
      call_mcp_tool [("s1", (⟨"s1", "srv", 0⟩ : MCPClientSession Nat))] "s1" "echo"
        none (fun _ _ => .ok ⟨[], none⟩) :=
  ⟨by decide, rfl,
    c5_call_tool_nonobject_as_no_arguments
      [("s1", (⟨"s1", "srv", 0⟩ : MCPClientSession Nat))] "s1" "echo"
      (Json.arr []) (fun _ _ => .ok ⟨[], none⟩) (by decide) rfl⟩

/-- C3: disconnecting an absent id fails with `NotFound` and returns the
registry exactly unchanged; on a registry with pairwise distinct keys
that contains the id, the registry produced by the removal phase (the
state visible while cancellation is still being awaited) no longer
resolves the id. -/
theorem c3_disconnect_not_found_and_removal_first {σ : Type} (st : Sessions σ)
    (server_id : String) (cancel : σ → Except String Unit) :
    (st.containsKey server_id = false →
      disconnect_mcp_server st server_id cancel =
        (.error (.NotFound ("Server " ++ server_id ++ " not found")), st)) ∧
    (st.keys.Nodup → st.containsKey server_id = true →
      (disconnectRemove st server_id).2.lookup server_id = none) := by
  constructor
  · intro h
    unfold disconnect_mcp_server disconnectRemove
    rw [Sessions.remove_of_not_contains st server_id h]
  · intro hnd _hcont
    exact Sessions.lookup_remove_self st server_id hnd

/-- Witness for C3: the absent branch on the empty registry, the present
branch on a singleton registry. -/
theorem c3_disconnect_witness :
    disconnect_mcp_server (Sessions.empty Nat) "s1" (fun _ => .ok ()) =
      (.error (.NotFound ("Server " ++ "s1" ++ " not found")), Sessions.empty Nat) ∧
    (disconnectRemove [("s1", (⟨"s1", "srv", 0⟩ : MCPClientSession Nat))] "s1").2.lookup "s1" =
      none :=
  ⟨(c3_disconnect_not_found_and_removal_first (Sessions.empty Nat) "s1"
      (fun _ => .ok ())).1 rfl,
   (c3_disconnect_not_found_and_removal_first
      [("s1", (⟨"s1", "srv", 0⟩ : MCPClientSession Nat))] "s1"
      (fun _ => .ok ())).2 (by decide) (by decide)⟩

/-- C4: `disconnect_all` always succeeds with an empty final registry,
for every combination of per-session cancellation outcomes, and every
session that was in the registry receives its own cancellation attempt
(recorded with its outcome), so one failed cancellation never suppresses
the attempts of the others. -/
theorem c4_disconnect_all_drains_then_cancels {σ : Type}
    (st : List (String × MCPClientSession σ))
    (cancel : σ → Except String Unit) :
    (disconnect_all_mcp_servers st cancel).1 = .ok () ∧
    (disconnect_all_mcp_servers st cancel).2.1 = Sessions.empty σ ∧
    ∀ entry ∈ st, (entry.2, cancel entry.2.service) ∈
      (disconnect_all_mcp_servers st cancel).2.2 := by
  refine ⟨rfl, rfl, fun entry hmem => ?_⟩
  exact mem_cancelAllLoop cancel (st.map Prod.snd) entry.2
    (List.mem_map_of_mem _ hmem)

/-- Witness for C4 at a three-session registry whose middle session fails
to cancel. -/
theorem c4_disconnect_all_witness :
    (disconnect_all_mcp_servers
        [("a", (⟨"a", "A", 1⟩ : MCPClientSession Nat)),
         ("b", ⟨"b", "B", 2⟩), ("c", ⟨"c", "C", 3⟩)]
        (fun s => if s = 2 then .error "stuck" else .ok ())).1 = .ok () ∧
    (disconnect_all_mcp_servers
        [("a", (⟨"a", "A", 1⟩ : MCPClientSession Nat)),
         ("b", ⟨"b", "B", 2⟩), ("c", ⟨"c", "C", 3⟩)]
        (fun s => if s = 2 then .error "stuck" else .ok ())).2.1 = Sessions.empty Nat ∧
    ((⟨"c", "C", 3⟩ : MCPClientSession Nat),
        (if (3 : Nat) = 2 then (.error "stuck" : Except String Unit) else .ok ())) ∈
      (disconnect_all_mcp_servers
        [("a", (⟨"a", "A", 1⟩ : MCPClientSession Nat)),
         ("b", ⟨"b", "B", 2⟩), ("c", ⟨"c", "C", 3⟩)]
        (fun s => if s = 2 then .error "stuck" else .ok ())).2.2 := by
  refine ⟨?_, ?_, ?_⟩
  · exact (c4_disconnect_all_drains_then_cancels _ _).1
  · exact (c4_disconnect_all_drains_then_cancels _ _).2.1
  · exact (c4_disconnect_all_drains_then_cancels
      [("a", (⟨"a", "A", 1⟩ : MCPClientSession Nat)),
       ("b", ⟨"b", "B", 2⟩), ("c", ⟨"c", "C", 3⟩)]
      (fun s => if s = 2 then .error "stuck" else .ok ())).2.2
      ("c", ⟨"c", "C", 3⟩) (by simp)

/-- C1: when `connect(id)` succeeds and `connect(id)` is called again
with no disconnect in between (the two calls running to completion one
after the other), the second call fails with the already-connected error,
leaves the registry exactly as the first call left it, and the session
installed by the first call is still the one the registry resolves for
the id. -/
theorem c1_connect_twice_already_connected {τ : Type} {σ : Type}
    (st : Sessions σ) (server_id server_name command : String)
    (args : List String) (env : Option (List (String × String)))
    (t : τ) (serve : τ → Except String σ)
    (peer_info : σ → Option InitializeResult) (service : σ)
    (server_name2 command2 : String) (args2 : List String)
    (env2 : Option (List (String × String)))
    (transport2 : Except String τ) (serve2 : τ → Except String σ)
    (peer_info2 : σ → Option InitializeResult)
    (hfree : st.containsKey server_id = false)
    (hserve : serve t = .ok service) :
    (connect_mcp_server st server_id server_name command args env
        (.ok t) serve peer_info).result.isOk = true ∧
    (connect_mcp_server
        (connect_mcp_server st server_id server_name command args env
          (.ok t) serve peer_info).state
        server_id server_name2 command2 args2 env2
        transport2 serve2 peer_info2).result =
      .error (.Mcp ("Server " ++ server_id ++ " is already connected")) ∧
    (connect_mcp_server
        (connect_mcp_server st server_id server_name command args env
          (.ok t) serve peer_info).state
        server_id server_name2 command2 args2 env2
        transport2 serve2 peer_info2).state =
      (connect_mcp_server st server_id server_name command args env
        (.ok t) serve peer_info).state ∧
    (connect_mcp_server st server_id server_name command args env
        (.ok t) serve peer_info).state.lookup server_id =
      some { server_id := server_id, server_name := server_name
             service := service } := by
  have hstate : (connect_mcp_server st server_id server_name command args env
      (.ok t) serve peer_info).state =
      connectInsert st server_id server_name service := by
    simp [connect_mcp_server, connectCheck, hfree, hserve]
  have hlook : (connectInsert st server_id server_name service).lookup server_id =
      some { server_id := server_id, server_name := server_name
             service := service } :=
    Sessions.lookup_insert st server_id _
  have hcont2 : (connectInsert st server_id server_name service).containsKey
      server_id = true := by
    rw [Sessions.containsKey, hlook]
    rfl
  refine ⟨?_, ?_, ?_, ?_⟩
  · simp [connect_mcp_server, connectCheck, hfree, hserve, Except.isOk,
      Except.toBool]
  · rw [hstate]
    simp [connect_mcp_server, connectCheck, hcont2]
  · rw [hstate]
    simp [connect_mcp_server, connectCheck, hcont2]
  · rw [hstate]
    exact hlook

/-- Witness for C1 on the empty registry with a transport and handshake
that succeed for the first call. -/
theorem c1_connect_twice_witness :
    Sessions.containsKey (Sessions.empty Nat) "s1" = false ∧
    (connect_mcp_server
        (connect_mcp_server (Sessions.empty Nat) "s1" "Echo" "echo" [] none
          (.ok ()) (fun _ => .ok 7) (fun _ => none)).state
        "s1" "Echo2" "echo" [] none (.ok ()) (fun _ => .ok 8)
        (fun _ => none)).result =
      .error (.Mcp ("Server " ++ "s1" ++ " is already connected")) ∧
    (connect_mcp_server (Sessions.empty Nat) "s1" "Echo" "echo" [] none
        (.ok ()) (fun _ => .ok 7) (fun _ => none)).state.lookup "s1" =
      some { server_id := "s1", server_name := "Echo", service := 7 } :=
  ⟨rfl,
   (c1_connect_twice_already_connected (Sessions.empty Nat) "s1" "Echo" "echo"
      [] none () (fun _ => .ok 7) (fun _ => none) 7 "Echo2" "echo" [] none
      (.ok ()) (fun _ => .ok 8) (fun _ => none) rfl rfl).2.1,
   (c1_connect_twice_already_connected (Sessions.empty Nat) "s1" "Echo" "echo"
      [] none () (fun _ => .ok 7) (fun _ => none) 7 "Echo2" "echo" [] none
      (.ok ()) (fun _ => .ok 8) (fun _ => none) rfl rfl).2.2.2⟩

/-- C10: whenever `connect` fails — in particular on a transport-creation
(spawn) failure or a handshake failure — the registry it returns is
exactly the registry it was given: nothing was inserted, modified or
removed. -/
theorem c10_connect_failure_leaves_registry {τ : Type} {σ : Type}
    (st : Sessions σ) (server_id server_name command : String)
    (args : List String) (env : Option (List (String × String)))
    (transport : Except String τ) (serve : τ → Except String σ)
    (peer_info : σ → Option InitializeResult) (err : AppError)
    (h : (connect_mcp_server st server_id server_name command args env
        transport serve peer_info).result = .error err) :
    (connect_mcp_server st server_id server_name command args env
        transport serve peer_info).state = st := by
  unfold connect_mcp_server at h ⊢
  by_cases hc : connectCheck st server_id
  · simp [hc]
  · simp only [hc, Bool.false_eq_true, if_false] at h ⊢
    cases transport with
    | error e => simp
    | ok t =>
        cases hserve : serve t with
        | error e => simp [hserve]
        | ok svc => simp [hserve] at h

/-- Witness for C10 at a spawn failure on the empty registry. -/
theorem c10_connect_failure_witness :
    (connect_mcp_server (Sessions.empty Nat) "s1" "X" "cmd" [] none
        (.error "spawn failed") (fun _ : Unit => .ok 0)
        (fun _ => none)).result =
      .error (.Mcp ("Failed to create transport: " ++ "spawn failed")) ∧
    (connect_mcp_server (Sessions.empty Nat) "s1" "X" "cmd" [] none
        (.error "spawn failed") (fun _ : Unit => .ok 0)
        (fun _ => none)).state = Sessions.empty Nat :=
  ⟨rfl,
   c10_connect_failure_leaves_registry (Sessions.empty Nat) "s1" "X" "cmd"
     [] none (.error "spawn failed") (fun _ : Unit => .ok 0) (fun _ => none)
     (.Mcp ("Failed to create transport: " ++ "spawn failed")) rfl⟩

/-- C8: `connectFromConfig` on a non-stdio configuration fails with the
unsupported-transport error without attempting a spawn and without
touching the registry; on a stdio configuration with no command it fails
with the no-command configuration error, likewise before any spawn
attempt and with the registry untouched. -/
theorem c8_connect_from_config_rejects_early {τ : Type} {σ : Type}
    (st : Sessions σ) (config : MCPServerConfig)
    (transport : Except String τ) (serve : τ → Except String σ)
    (peer_info : σ → Option InitializeResult) :
    (config.server_type ≠ "stdio" →
      mcp_connect_from_config st config transport serve peer_info =
        { result := .error
            (.Mcp "Only stdio MCP servers are supported for native connections")
          state := st
          spawnAttempted := false }) ∧
    (config.server_type = "stdio" → config.command = none →
      mcp_connect_from_config st config transport serve peer_info =
        { result := .error (.Mcp "No command specified for stdio server")
          state := st
          spawnAttempted := false }) := by
  constructor
  · intro h
    simp [mcp_connect_from_config, h]
  · intro htype hcmd
    simp [mcp_connect_from_config, htype, hcmd]

/-- Witness for C8: an http configuration and a command-less stdio
configuration, both on the empty registry. -/
theorem c8_connect_from_config_witness :
    mcp_connect_from_config (Sessions.empty Nat)
        { id := "s2", name := "X", server_type := "http", enabled := true
          command := none, args := none, env := none
          url := some "urlx", headers := none, description := none
          created_at := 0, updated_at := 0 }
        (.ok ()) (fun _ : Unit => .ok 0) (fun _ => none) =
      { result := .error
          (.Mcp "Only stdio MCP servers are supported for native connections")
        state := Sessions.empty Nat
        spawnAttempted := false } ∧
    mcp_connect_from_config (Sessions.empty Nat)
        { id := "s3", name := "Y", server_type := "stdio", enabled := true
          command := none, args := none, env := none
          url := none, headers := none, description := none
          created_at := 0, updated_at := 0 }
        (.ok ()) (fun _ : Unit => .ok 0) (fun _ => none) =
      { result := .error (.Mcp "No command specified for stdio server")
        state := Sessions.empty Nat
        spawnAttempted := false } :=
  ⟨(c8_connect_from_config_rejects_early (Sessions.empty Nat)
      { id := "s2", name := "X", server_type := "http", enabled := true
        command := none, args := none, env := none
        url := some "urlx", headers := none, description := none
        created_at := 0, updated_at := 0 }
      (.ok ()) (fun _ : Unit => .ok 0) (fun _ => none)).1 (by decide),
   (c8_connect_from_config_rejects_early (Sessions.empty Nat)
      { id := "s3", name := "Y", server_type := "stdio", enabled := true
        command := none, args := none, env := none
        url := none, headers := none, description := none
        created_at := 0, updated_at := 0 }
      (.ok ()) (fun _ : Unit => .ok 0) (fun _ => none)).2 rfl rfl⟩

/-- C9: every single-session operation (list tools, list resources, list
prompts, call tool, read resource, get prompt) surfaces the first failure
it meets: an unknown id yields `NotFound` before any remote call, and a
failed remote call yields the wrapped remote error — never a default
value in place of the failed result. Each operation consults its remote
oracle at most once by construction, so no retry exists. -/
theorem c9_single_session_ops_surface_first_failure {σ : Type}
    (st : Sessions σ) (server_id e : String)
    (list_tools : σ → Except String ListToolsResult)
    (list_resources : σ → Except String ListResourcesResult)
    (list_prompts : σ → Except String ListPromptsResult)
    (call_tool : σ → CallToolRequestParam → Except String RawCallToolResult)
    (read_resource : σ → ReadResourceRequestParam →
      Except String RawReadResourceResult)
    (get_prompt : σ → GetPromptRequestParam → Except String RawGetPromptResult)
    (tool_name : String) (tool_args : Option Json) (uri prompt_name : String)
    (prompt_args : Option (List (String × String))) :
    (st.lookup server_id = none →
      list_mcp_tools st server_id list_tools =
        .error (.NotFound ("Server " ++ server_id ++ " not found")) ∧
      list_mcp_resources st server_id list_resources =
        .error (.NotFound ("Server " ++ server_id ++ " not found")) ∧
      list_mcp_prompts st server_id list_prompts =
        .error (.NotFound ("Server " ++ server_id ++ " not found")) ∧
      call_mcp_tool st server_id tool_name tool_args call_tool =
        .error (.NotFound ("Server " ++ server_id ++ " not found")) ∧
      read_mcp_resource st server_id uri read_resource =
        .error (.NotFound ("Server " ++ server_id ++ " not found")) ∧
      get_mcp_prompt st server_id prompt_name prompt_args get_prompt =
        .error (.NotFound ("Server " ++ server_id ++ " not found"))) ∧
    (∀ session, st.lookup server_id = some session →
      (list_tools session.service = .error e →
        list_mcp_tools st server_id list_tools =
          .error (.Mcp ("Failed to list tools: " ++ e))) ∧
      (list_resources session.service = .error e →
        list_mcp_resources st server_id list_resources =
          .error (.Mcp ("Failed to list resources: " ++ e))) ∧
      (list_prompts session.service = .error e →
        list_mcp_prompts st server_id list_prompts =
          .error (.Mcp ("Failed to list prompts: " ++ e))) ∧
      (call_tool session.service
          { name := tool_name, arguments := tool_args.bind Json.asObject } =
            .error e →
        call_mcp_tool st server_id tool_name tool_args call_tool =
          .error (.Mcp ("Failed to call tool: " ++ e))) ∧
      (read_resource session.service { uri := uri } = .error e →
        read_mcp_resource st server_id uri read_resource =
          .error (.Mcp ("Failed to read resource: " ++ e))) ∧
      (get_prompt session.service
          { name := prompt_name
            arguments := prompt_args.map (fun m =>
              m.map (fun kv => (kv.1, Json.str kv.2))) } = .error e →
        get_mcp_prompt st server_id prompt_name prompt_args get_prompt =
          .error (.Mcp ("Failed to get prompt: " ++ e)))) := by
  constructor
  · intro h
    refine ⟨?_, ?_, ?_, ?_, ?_, ?_⟩ <;>
      simp [list_mcp_tools, list_mcp_resources, list_mcp_prompts,
        call_mcp_tool, read_mcp_resource, get_mcp_prompt, h]
  · intro session hs
    refine ⟨fun herr => ?_, fun herr => ?_, fun herr => ?_, fun herr => ?_,
      fun herr => ?_, fun herr => ?_⟩ <;>
      simp [list_mcp_tools, list_mcp_resources, list_mcp_prompts,
        call_mcp_tool, read_mcp_resource, get_mcp_prompt, hs, herr]

/-- Witness for C9: an unknown id on the empty registry for the tool
listing, and a failing remote tool call on a singleton registry. -/
theorem c9_single_session_ops_witness :
    list_mcp_tools (Sessions.empty Nat) "s1" (fun _ => .ok ⟨[]⟩) =
      .error (.NotFound ("Server " ++ "s1" ++ " not found")) ∧
    call_mcp_tool [("s1", (⟨"s1", "srv", 0⟩ : MCPClientSession Nat))] "s1"
        "echo" none (fun _ _ => .error "boom") =
      .error (.Mcp ("Failed to call tool: " ++ "boom")) :=
  ⟨((c9_single_session_ops_surface_first_failure (Sessions.empty Nat) "s1"
      "boom" (fun _ => .ok ⟨[]⟩) (fun _ => .ok ⟨[]⟩) (fun _ => .ok ⟨[]⟩)
      (fun _ _ => .error "boom") (fun _ _ => .ok ⟨[]⟩)
      (fun _ _ => .ok ⟨none, []⟩) "echo" none "u" "p" none).1 rfl).1,
   (((c9_single_session_ops_surface_first_failure
      [("s1", (⟨"s1", "srv", 0⟩ : MCPClientSession Nat))] "s1"
      "boom" (fun _ => .ok ⟨[]⟩) (fun _ => .ok ⟨[]⟩) (fun _ => .ok ⟨[]⟩)
      (fun _ _ => .error "boom") (fun _ _ => .ok ⟨[]⟩)
      (fun _ _ => .ok ⟨none, []⟩) "echo" none "u" "p" none).2
      ⟨"s1", "srv", 0⟩ (by decide)).2.2.2.1) rfl⟩

/-- C2: the presence check of `connect` (its read-locked block, lines
300-308) and its insertion (the write-locked block, lines 344-354) are
two separate critical sections with the transport phase in between, so
the interleaving in which two `connect("s1")` calls both run their check
against the same initial registry before either inserts is possible:
both checks pass, and the later insertion replaces the session installed
by the earlier one, which is silently dropped. This contradicts the
claimed atomicity; the theorem evaluates the two critical sections along
exactly that interleaving. -/
theorem c2_connect_check_insert_race :
    connectCheck (Sessions.empty Nat) "s1" = false ∧
    (connectInsert (Sessions.empty Nat) "s1" "first" 1).lookup "s1" =
      some { server_id := "s1", server_name := "first", service := 1 } ∧
    (connectInsert (connectInsert (Sessions.empty Nat) "s1" "first" 1)
        "s1" "second" 2).lookup "s1" =
      some { server_id := "s1", server_name := "second", service := 2 } ∧
    ((some { server_id := "s1", server_name := "second", service := 2 } :
        Option (MCPClientSession Nat)) ≠
      some { server_id := "s1", server_name := "first", service := 1 }) := by
  refine ⟨by decide, by decide, by decide, by decide⟩

end SastReadium
